import Mathlib

/-!
# AgriSense — verification of the synthetic-data simulator and scoring engine

Shallow embedding of the deterministic core of the repository
(`src/data/generate_synthetic_data.py`, `src/models/utils/preprocessing.py`,
`src/models/soil_health/nutrient_deficiency.py`,
`src/models/water_management/irrigation_optimizer.py`,
`src/models/water_management/water_quality.py`).

Python/NumPy floats are modelled as exact rationals (`ℚ`) except where the
code takes a square root (`estimate_eto`), which is modelled over `ℝ`.
`round(x, d)` / `np.round(x, d)` round half-to-even (IEEE-754 / NumPy
semantics) and are modelled by `roundTo d`.  `np.clip(x, lo, hi)` is
`clip x lo hi = min hi (max lo x)`.  Random draws (Gaussian noise, seasonal
sine factors, zone / source assignment, missing-value masks) are modelled as
universally quantified inputs or input streams.
-/

namespace AgriSense

/-- `np.clip(x, lo, hi)` = `min(max(x, lo), hi)`. -/
def clip {α : Type} [LinearOrder α] (x lo hi : α) : α :=
  min hi (max lo x)

/-- Round to the nearest integer, ties to even (IEEE-754 / NumPy default). -/
def rnd {α : Type} [LinearOrderedField α] [FloorRing α] (x : α) : ℤ :=
  if x - ⌊x⌋ < 1/2 then ⌊x⌋
  else if 1/2 < x - ⌊x⌋ then ⌊x⌋ + 1
  else if Even ⌊x⌋ then ⌊x⌋ else ⌊x⌋ + 1

/-- `round(x, d)` / `np.round(x, d)`: round to `d` decimal places,
ties to even. -/
def roundTo {α : Type} [LinearOrderedField α] [FloorRing α] (d : ℕ) (x : α) : α :=
  ((rnd ((10 : α) ^ d * x) : ℤ) : α) / (10 : α) ^ d

section RoundLemmas

variable {α : Type} [LinearOrderedField α] [FloorRing α]

theorem floor_le_rnd (x : α) : ⌊x⌋ ≤ rnd x := by
  unfold rnd
  split_ifs <;> omega

theorem rnd_le_ceil (x : α) : rnd x ≤ ⌊x⌋ + 1 := by
  unfold rnd
  split_ifs <;> omega

theorem le_rnd_of_int_le {z : ℤ} {x : α} (h : (z : α) ≤ x) : z ≤ rnd x :=
  le_trans (Int.le_floor.mpr h) (floor_le_rnd x)

theorem rnd_le_of_le_int {z : ℤ} {x : α} (h : x ≤ (z : α)) : rnd x ≤ z := by
  have hfl : ⌊x⌋ ≤ z := Int.floor_le_floor (α := α) (by simpa using h) |>.trans
    (by simp)
  rcases eq_or_lt_of_le hfl with heq | hlt
  · unfold rnd
    have hfr : x - ⌊x⌋ ≤ 0 := by
      have := h
      rw [heq] at *
      linarith [h]
    split_ifs with h1 h2 h3
    · omega
    · exfalso; linarith
    · omega
    · exfalso; linarith
  · calc rnd x ≤ ⌊x⌋ + 1 := rnd_le_ceil x
      _ ≤ z := by omega

/-- If `z₁/10^d ≤ x ≤ z₂/10^d` with integer `z₁ z₂`, then `roundTo d x`
stays in the same interval. -/
theorem roundTo_mem {d : ℕ} {z₁ z₂ : ℤ} {x : α}
    (h₁ : (z₁ : α) / (10 : α) ^ d ≤ x) (h₂ : x ≤ (z₂ : α) / (10 : α) ^ d) :
    (z₁ : α) / (10 : α) ^ d ≤ roundTo d x ∧
      roundTo d x ≤ (z₂ : α) / (10 : α) ^ d := by
  have hp : (0 : α) < (10 : α) ^ d := by positivity
  have h₁' : (z₁ : α) ≤ (10 : α) ^ d * x := by
    rw [div_le_iff hp] at h₁; linarith
  have h₂' : (10 : α) ^ d * x ≤ (z₂ : α) := by
    rw [le_div_iff hp] at h₂; linarith
  have h₃ : ((z₁ : α)) ≤ ((rnd ((10 : α) ^ d * x) : ℤ) : α) := by
    exact_mod_cast le_rnd_of_int_le h₁'
  have h₄ : ((rnd ((10 : α) ^ d * x) : ℤ) : α) ≤ (z₂ : α) := by
    exact_mod_cast rnd_le_of_le_int h₂'
  constructor
  · unfold roundTo
    gcongr
  · unfold roundTo
    gcongr

end RoundLemmas

theorem clip_mem {α : Type} [LinearOrder α] {x lo hi : α} (h : lo ≤ hi) :
    lo ≤ clip x lo hi ∧ clip x lo hi ≤ hi := by
  unfold clip
  constructor
  · exact le_min h (le_max_left lo x)
  · exact min_le_left hi _

/-! ## Water-quality grading rubric
(`generate_water_data`, `src/data/generate_synthetic_data.py` lines 149-166)

The grade is computed from the raw (clamped, un-rounded) sensor values, in
an `if/elif` accumulation over the five parameters. -/

/-- The additive point score of `generate_water_data` (lines 150-160),
on the raw `ph`, `tds`, `turbidity`, `dissolved_o2`, `nitrate` values. -/
def waterQualityScore (ph tds turbidity dissolved_o2 nitrate : ℚ) : ℕ :=
  (if 6.5 ≤ ph ∧ ph ≤ 8.5 then 20 else if 6.0 ≤ ph ∧ ph ≤ 9.0 then 10 else 0)
  + (if tds < 500 then 20 else if tds < 1000 then 10 else 0)
  + (if turbidity < 5 then 20 else if turbidity < 10 then 10 else 0)
  + (if dissolved_o2 > 6 then 20 else if dissolved_o2 > 4 then 10 else 0)
  + (if nitrate < 10 then 20 else if nitrate < 45 then 10 else 0)

/-- The score → letter-grade ladder of `generate_water_data` (lines 162-166). -/
def qualityGrade (score : ℕ) : String :=
  if score ≥ 80 then "A"
  else if score ≥ 60 then "B"
  else if score ≥ 40 then "C"
  else if score ≥ 20 then "D"
  else "F"

/-! Spec-side tier functions, written from the claim's wording, to be
compared against `waterQualityScore`. -/

/-- Claim tier for pH: 20 if 6.5 ≤ pH ≤ 8.5, 10 if 6.0 ≤ pH ≤ 9.0, else 0. -/
def phPoints (ph : ℚ) : ℕ :=
  if 6.5 ≤ ph ∧ ph ≤ 8.5 then 20 else if 6.0 ≤ ph ∧ ph ≤ 9.0 then 10 else 0

/-- Claim tier for TDS: 20 if < 500, 10 if < 1000, else 0. -/
def tdsPoints (tds : ℚ) : ℕ :=
  if tds < 500 then 20 else if tds < 1000 then 10 else 0

/-- Claim tier for turbidity: 20 if < 5, 10 if < 10, else 0. -/
def turbidityPoints (turbidity : ℚ) : ℕ :=
  if turbidity < 5 then 20 else if turbidity < 10 then 10 else 0

/-- Claim tier for dissolved oxygen: 20 if > 6, 10 if > 4, else 0. -/
def doPoints (dissolved_o2 : ℚ) : ℕ :=
  if dissolved_o2 > 6 then 20 else if dissolved_o2 > 4 then 10 else 0

/-- Claim tier for nitrate: 20 if < 10, 10 if < 45, else 0. -/
def nitratePoints (nitrate : ℚ) : ℕ :=
  if nitrate < 10 then 20 else if nitrate < 45 then 10 else 0

/-! ## Soil-health score and category
(`src/models/utils/preprocessing.py` lines 132-200) -/

/-- One row of the cleaned soil table, as consumed by
`generate_soil_health_score` (only the fields the function reads). -/
structure SoilRow where
  nitrogen_mg_kg : ℚ
  phosphorus_mg_kg : ℚ
  potassium_mg_kg : ℚ
  ph : ℚ
  organic_matter_pct : ℚ
  moisture_pct : ℚ
  ec_mscm : ℚ

/-- `generate_soil_health_score` (`preprocessing.py` lines 132-188):
NPK balance (30 pts), pH (20 pts), organic matter (20 pts), moisture
(15 pts), EC (15 pts); the sum is rounded to one decimal and clipped
to [0, 100]. -/
def generate_soil_health_score (row : SoilRow) : ℚ :=
  let n := row.nitrogen_mg_kg
  let p := row.phosphorus_mg_kg
  let k := row.potassium_mg_kg
  let n_score := max 0 (10 - |n - 80| / 8)
  let p_score := max 0 (10 - |p - 45| / 5)
  let k_score := max 0 (10 - |k - 60| / 6)
  let score := n_score + p_score + k_score
  let ph := row.ph
  let score := score +
    (if 6.0 ≤ ph ∧ ph ≤ 7.5 then 20 else if 5.5 ≤ ph ∧ ph ≤ 8.0 then 12
     else if 5.0 ≤ ph ∧ ph ≤ 8.5 then 5 else 0)
  let om := row.organic_matter_pct
  let score := score +
    (if 3.0 ≤ om ∧ om ≤ 6.0 then 20 else if 2.0 ≤ om ∧ om ≤ 8.0 then 12 else 5)
  let m := row.moisture_pct
  let score := score +
    (if 20 ≤ m ∧ m ≤ 45 then 15 else if 10 ≤ m ∧ m ≤ 60 then 8 else 3)
  let ec := row.ec_mscm
  let score := score +
    (if 0.5 ≤ ec ∧ ec ≤ 2.5 then 15 else if 0.2 ≤ ec ∧ ec ≤ 4.0 then 8 else 2)
  clip (roundTo 1 score) 0 100

/-- `categorize_health_score` (`preprocessing.py` lines 191-200). -/
def categorize_health_score (score : ℚ) : String :=
  if score ≥ 80 then "Excellent"
  else if score ≥ 60 then "Good"
  else if score ≥ 40 then "Fair"
  else "Poor"

/-! Spec-side components of the soil-health rubric, written from the
claim's wording (the tier bounds of the organic-matter / moisture / EC
components, which the claim only sketches, are taken from the code). -/

/-- Claim NPK component: each nutrient contributes
`max(0, 10 − |value − ideal| / sensitivity)`, N ideal 80 ÷ 8,
P ideal 45 ÷ 5, K ideal 60 ÷ 6. -/
def npkComponent (row : SoilRow) : ℚ :=
  max 0 (10 - |row.nitrogen_mg_kg - 80| / 8)
  + max 0 (10 - |row.phosphorus_mg_kg - 45| / 5)
  + max 0 (10 - |row.potassium_mg_kg - 60| / 6)

/-- Claim pH component: 20 if pH ∈ [6.0, 7.5], 12 if pH ∈ [5.5, 8.0],
5 if pH ∈ [5.0, 8.5], else 0. -/
def phComponent (row : SoilRow) : ℚ :=
  if 6.0 ≤ row.ph ∧ row.ph ≤ 7.5 then 20
  else if 5.5 ≤ row.ph ∧ row.ph ≤ 8.0 then 12
  else if 5.0 ≤ row.ph ∧ row.ph ≤ 8.5 then 5 else 0

/-- Claim organic-matter component: up to 20 points, tiered around [3, 6]%. -/
def omComponent (row : SoilRow) : ℚ :=
  if 3.0 ≤ row.organic_matter_pct ∧ row.organic_matter_pct ≤ 6.0 then 20
  else if 2.0 ≤ row.organic_matter_pct ∧ row.organic_matter_pct ≤ 8.0 then 12
  else 5

/-- Claim moisture component: up to 15 points, tiered around [20, 45]%. -/
def moistureComponent (row : SoilRow) : ℚ :=
  if 20 ≤ row.moisture_pct ∧ row.moisture_pct ≤ 45 then 15
  else if 10 ≤ row.moisture_pct ∧ row.moisture_pct ≤ 60 then 8
  else 3

/-- Claim EC component: up to 15 points, tiered around [0.5, 2.5] mS/cm. -/
def ecComponent (row : SoilRow) : ℚ :=
  if 0.5 ≤ row.ec_mscm ∧ row.ec_mscm ≤ 2.5 then 15
  else if 0.2 ≤ row.ec_mscm ∧ row.ec_mscm ≤ 4.0 then 8
  else 2

/-- The claim's un-rounded total: sum of the five components. -/
def soilScoreComponentsSum (row : SoilRow) : ℚ :=
  npkComponent row + phComponent row + omComponent row + moistureComponent row
    + ecComponent row

/-! ## Nutrient deficiency diagnosis
(`src/models/soil_health/nutrient_deficiency.py`) -/

/-- One entry of `AMENDMENT_RECOMMENDATIONS`
(`nutrient_deficiency.py` lines 38-63). -/
structure Amendment where
  amendment : String
  dosage : String
  timing : String
deriving DecidableEq

/-- `AMENDMENT_RECOMMENDATIONS["N_deficient"]`. -/
def N_deficient_recs : List Amendment :=
  [⟨"Urea (46-0-0)", "60-100 kg/ha",
     "Split application: 50% at sowing, 50% at 30 days"⟩,
   ⟨"Ammonium Sulfate (21-0-0-24S)", "120-180 kg/ha",
     "Pre-sowing or side-dress"⟩,
   ⟨"Neem-coated Urea", "60-100 kg/ha", "Slow release, apply at sowing"⟩]

/-- `AMENDMENT_RECOMMENDATIONS["P_deficient"]`. -/
def P_deficient_recs : List Amendment :=
  [⟨"DAP (18-46-0)", "50-80 kg/ha", "Apply at sowing as basal dose"⟩,
   ⟨"SSP (0-16-0)", "150-250 kg/ha", "Basal application"⟩,
   ⟨"Rock Phosphate", "200-400 kg/ha",
     "Pre-sowing, works best in acidic soils"⟩]

/-- `AMENDMENT_RECOMMENDATIONS["K_deficient"]`. -/
def K_deficient_recs : List Amendment :=
  [⟨"MOP - Muriate of Potash (0-0-60)", "40-80 kg/ha",
     "Basal or split application"⟩,
   ⟨"SOP - Sulfate of Potash (0-0-50)", "50-100 kg/ha",
     "For chloride-sensitive crops"⟩,
   ⟨"Wood Ash", "500-1000 kg/ha", "Pre-sowing, also raises pH"⟩]

/-- `AMENDMENT_RECOMMENDATIONS["pH_low"]`. -/
def pH_low_recs : List Amendment :=
  [⟨"Agricultural Lime (CaCO3)", "2-4 tons/ha",
     "Apply 2-3 months before sowing"⟩,
   ⟨"Dolomite Lime", "1.5-3 tons/ha",
     "Also supplies Mg, apply before plowing"⟩]

/-- `AMENDMENT_RECOMMENDATIONS["pH_high"]`. -/
def pH_high_recs : List Amendment :=
  [⟨"Gypsum (CaSO4)", "2-5 tons/ha", "Apply before plowing season"⟩,
   ⟨"Sulfur (Eleite)", "200-500 kg/ha",
     "Apply and incorporate into soil"⟩,
   ⟨"Organic Matter / Compost", "10-20 tons/ha",
     "Regular annual application"⟩]

/-- Per-nutrient rows of `DEFICIENCY_THRESHOLDS` (lines 30-36). -/
structure NutrientThresholds where
  low : ℚ
  moderate : ℚ
  adequate : ℚ

/-- `DEFICIENCY_THRESHOLDS["nitrogen"]`. -/
def nitrogenThresholds : NutrientThresholds := ⟨40, 60, 80⟩

/-- `DEFICIENCY_THRESHOLDS["phosphorus"]`. -/
def phosphorusThresholds : NutrientThresholds := ⟨15, 25, 40⟩

/-- `DEFICIENCY_THRESHOLDS["potassium"]`. -/
def potassiumThresholds : NutrientThresholds := ⟨25, 35, 50⟩

/-- `DEFICIENCY_THRESHOLDS["ph_low"]`. -/
def thresholds_ph_low : ℚ := 5.5

/-- `DEFICIENCY_THRESHOLDS["ph_high"]`. -/
def thresholds_ph_high : ℚ := 8.0

/-- The `sensor_reading` dict passed to `diagnose`, restricted to the four
keys the function reads; `none` models an absent key
(`sensor_reading.get(key, default)`). -/
structure Reading where
  nitrogen_mg_kg : Option ℚ
  phosphorus_mg_kg : Option ℚ
  potassium_mg_kg : Option ℚ
  ph : Option ℚ

/-- One element of `result["deficiencies"]` in `diagnose`. -/
structure Deficiency where
  nutrient : String
  value : ℚ
  severity : String
deriving DecidableEq

/-- The dict returned by `diagnose`. -/
structure DiagnoseResult where
  deficiencies : List Deficiency
  recommendations : List Amendment
  severity : String
deriving DecidableEq

/-- `diagnose` (`nutrient_deficiency.py` lines 182-224). -/
def diagnose (sensor_reading : Reading) : DiagnoseResult :=
  let n := sensor_reading.nitrogen_mg_kg.getD 0
  let p := sensor_reading.phosphorus_mg_kg.getD 0
  let k := sensor_reading.potassium_mg_kg.getD 0
  let ph := sensor_reading.ph.getD 7.0
  let nDefs : List Deficiency :=
    if n < nitrogenThresholds.moderate then
      [⟨"Nitrogen", n, if n < nitrogenThresholds.low then "Critical" else "Low"⟩]
    else []
  let nRecs := if n < nitrogenThresholds.moderate then N_deficient_recs else []
  let pDefs : List Deficiency :=
    if p < phosphorusThresholds.moderate then
      [⟨"Phosphorus", p,
        if p < phosphorusThresholds.low then "Critical" else "Low"⟩]
    else []
  let pRecs := if p < phosphorusThresholds.moderate then P_deficient_recs else []
  let kDefs : List Deficiency :=
    if k < potassiumThresholds.moderate then
      [⟨"Potassium", k,
        if k < potassiumThresholds.low then "Critical" else "Low"⟩]
    else []
  let kRecs := if k < potassiumThresholds.moderate then K_deficient_recs else []
  let phDefs : List Deficiency :=
    if ph < thresholds_ph_low then [⟨"pH (Acidic)", ph, "Imbalanced"⟩]
    else if ph > thresholds_ph_high then [⟨"pH (Alkaline)", ph, "Imbalanced"⟩]
    else []
  let phRecs :=
    if ph < thresholds_ph_low then pH_low_recs
    else if ph > thresholds_ph_high then pH_high_recs
    else []
  let deficiencies := nDefs ++ pDefs ++ kDefs ++ phDefs
  let severity :=
    if deficiencies.isEmpty then "none"
    else if (deficiencies.map Deficiency.severity).contains "Critical" then
      "critical"
    else "moderate"
  ⟨deficiencies, nRecs ++ pRecs ++ kRecs ++ phRecs, severity⟩

/-- The severity recorded for nutrient `name` in a diagnosis, if it was
flagged (projection helper for stating properties of `diagnose`). -/
def severityOf (name : String) (res : DiagnoseResult) : Option String :=
  (res.deficiencies.find? (fun d => d.nutrient == name)).map Deficiency.severity

/-! ## Irrigation need
(`src/models/water_management/irrigation_optimizer.py` lines 77-89) -/

/-- The `field_capacity` per-soil-type lookup (lines 78-82), including the
`.fillna(35)` default for a soil type not in the table (line 82). -/
def field_capacity (soil_type : String) : ℚ :=
  if soil_type = "Loamy" then 40
  else if soil_type = "Clay" then 50
  else if soil_type = "Sandy" then 20
  else if soil_type = "Silt" then 45
  else if soil_type = "Clay Loam" then 48
  else if soil_type = "Sandy Loam" then 28
  else if soil_type = "Peaty" then 60
  else 35

/-- The `moisture_deficit` column (line 85). -/
def moisture_deficit (soil_type : String) (moisture_pct : ℚ) : ℚ :=
  field_capacity soil_type * 0.5 - moisture_pct

/-- The `irrigation_need_mm` column (lines 86-89), per joined row. -/
def irrigation_need_mm (soil_type : String)
    (moisture_pct evapotranspiration_est rainfall_mm : ℚ) : ℚ :=
  clip (moisture_deficit soil_type moisture_pct
    + evapotranspiration_est * 5 - rainfall_mm * 0.8) 0 50

/-! ## Irrigation suitability
(`src/models/water_management/water_quality.py` lines 31-37 and 153-173) -/

/-- `IRRIGATION_LIMITS` (lines 31-37). -/
def IRRIGATION_LIMITS_ph_min : ℚ := 6.0

def IRRIGATION_LIMITS_ph_max : ℚ := 8.5

def IRRIGATION_LIMITS_tds_max : ℚ := 2000

def IRRIGATION_LIMITS_chloride_max : ℚ := 350

def IRRIGATION_LIMITS_sulfate_max : ℚ := 400

def IRRIGATION_LIMITS_hardness_max : ℚ := 500

/-- The keys of the `reading` dict read by `assess_irrigation_suitability`;
`none` models a missing key (`reading.get(param)` returning `None`, which
the loop skips). -/
structure WaterReading where
  ph : Option ℚ
  tds_ppm : Option ℚ
  chloride_mg_l : Option ℚ
  sulfate_mg_l : Option ℚ
  hardness_mg_l : Option ℚ

/-- Whether an issue message reports the max or the min bound. -/
inductive BoundKind
  | exceedsMax
  | belowMin
deriving DecidableEq

/-- One issue message, abstracted to the parameter name, the offending
value and which bound was violated (the Python code renders these three
data as an f-string). -/
structure Issue where
  param : String
  value : ℚ
  kind : BoundKind
deriving DecidableEq

/-- The dict returned by `assess_irrigation_suitability`. -/
structure SuitabilityResult where
  suitable : Bool
  issues : List Issue
  recommendation : String

/-- Max-bound check of one loop iteration of `assess_irrigation_suitability`
(lines 158-163): skipped when the value is absent. -/
def checkMax (param : String) (value : Option ℚ) (limit : ℚ) : List Issue :=
  match value with
  | none => []
  | some v => if v > limit then [⟨param, v, BoundKind.exceedsMax⟩] else []

/-- Min-bound check of one loop iteration (lines 165-166). -/
def checkMin (param : String) (value : Option ℚ) (limit : ℚ) : List Issue :=
  match value with
  | none => []
  | some v => if v < limit then [⟨param, v, BoundKind.belowMin⟩] else []

/-- `assess_irrigation_suitability` (lines 153-173).  The loop visits the
`IRRIGATION_LIMITS` entries in dict order (ph, tds, chloride, sulfate,
hardness), checking the max bound before the min bound; `suitable` ends up
`False` exactly when at least one issue was appended. -/
def assess_irrigation_suitability (reading : WaterReading) : SuitabilityResult :=
  let issues :=
    checkMax "ph" reading.ph IRRIGATION_LIMITS_ph_max
    ++ checkMin "ph" reading.ph IRRIGATION_LIMITS_ph_min
    ++ checkMax "tds_ppm" reading.tds_ppm IRRIGATION_LIMITS_tds_max
    ++ checkMax "chloride_mg_l" reading.chloride_mg_l IRRIGATION_LIMITS_chloride_max
    ++ checkMax "sulfate_mg_l" reading.sulfate_mg_l IRRIGATION_LIMITS_sulfate_max
    ++ checkMax "hardness_mg_l" reading.hardness_mg_l IRRIGATION_LIMITS_hardness_max
  let suitable := issues.isEmpty
  ⟨suitable, issues,
    if suitable then "Suitable for irrigation"
    else "Treatment needed before irrigation"⟩

/-! ## Soil simulator (`generate_soil_data`,
`src/data/generate_synthetic_data.py` lines 39-97)

Randomness is modelled by explicit inputs: per-record Gaussian draws, the
sine-derived seasonal factors of lines 67-73 (functions of the drawn
timestamp only), the drawn zone, and the missing-value Bernoulli masks of
lines 92-95. -/

/-- The closed set of zone keys of `ZONE_PROFILES` (lines 25-34): zones are
drawn from `list(ZONE_PROFILES.keys())`, so only these eight occur. -/
inductive Zone
  | Zone_1 | Zone_2 | Zone_3 | Zone_4 | Zone_5 | Zone_6 | Zone_7 | Zone_8
deriving DecidableEq

/-- One `ZONE_PROFILES` value (lines 25-34). -/
structure ZoneProfile where
  soil_type : String
  base_pH : ℚ
  base_N : ℚ
  base_P : ℚ
  base_K : ℚ
  base_moisture : ℚ

/-- `ZONE_PROFILES` (lines 25-34). -/
def ZONE_PROFILES : Zone → ZoneProfile
  | .Zone_1 => ⟨"Loamy", 6.5, 80, 45, 60, 35⟩
  | .Zone_2 => ⟨"Clay", 7.2, 60, 35, 50, 45⟩
  | .Zone_3 => ⟨"Sandy", 5.8, 40, 20, 35, 15⟩
  | .Zone_4 => ⟨"Silt", 6.8, 70, 40, 55, 40⟩
  | .Zone_5 => ⟨"Loamy", 6.2, 90, 50, 70, 32⟩
  | .Zone_6 => ⟨"Clay Loam", 7.0, 55, 30, 45, 42⟩
  | .Zone_7 => ⟨"Sandy Loam", 6.0, 50, 25, 40, 22⟩
  | .Zone_8 => ⟨"Peaty", 5.5, 100, 55, 75, 55⟩

/-- The zone key string stored in the `zone_id` column. -/
def zoneName : Zone → String
  | .Zone_1 => "Zone_1"
  | .Zone_2 => "Zone_2"
  | .Zone_3 => "Zone_3"
  | .Zone_4 => "Zone_4"
  | .Zone_5 => "Zone_5"
  | .Zone_6 => "Zone_6"
  | .Zone_7 => "Zone_7"
  | .Zone_8 => "Zone_8"

/-- The `np.random.normal` draws of one soil record (lines 79-87).  For
`organic_matter_pct` and `ec_mscm` the draw is the whole
`np.random.normal(3.5, 1.2)` / `np.random.normal(1.5, 0.6)` sample; for the
other fields it is the additive noise term. -/
structure SoilNoise where
  nN : ℚ
  nP : ℚ
  nK : ℚ
  nPh : ℚ
  nOm : ℚ
  nMoist : ℚ
  nTemp : ℚ
  nEc : ℚ

/-- One generated soil record (lines 75-87); the timestamp string is
threaded through unmodified. -/
structure SoilRecord where
  timestamp : String
  zone_id : String
  soil_type : String
  nitrogen_mg_kg : ℚ
  phosphorus_mg_kg : ℚ
  potassium_mg_kg : ℚ
  ph : ℚ
  organic_matter_pct : ℚ
  moisture_pct : ℚ
  soil_temperature_c : ℚ
  ec_mscm : ℚ

/-- The record-building body of the loop of `generate_soil_data`
(lines 64-88).  `seasonal` and `moisture_seasonal` are the sine factors of
lines 69-73, computed upstream from the drawn timestamp. -/
def soilRecord (timestamp : String) (zone : Zone)
    (seasonal moisture_seasonal : ℚ) (w : SoilNoise) : SoilRecord :=
  let profile := ZONE_PROFILES zone
  { timestamp := timestamp
    zone_id := zoneName zone
    soil_type := profile.soil_type
    nitrogen_mg_kg := max 5 (profile.base_N * (0.7 + 0.6 * seasonal) + w.nN)
    phosphorus_mg_kg := max 2 (profile.base_P * (0.8 + 0.4 * seasonal) + w.nP)
    potassium_mg_kg := max 5 (profile.base_K * (0.75 + 0.5 * seasonal) + w.nK)
    ph := clip (profile.base_pH + w.nPh) 4.0 9.0
    organic_matter_pct :=
      clip (w.nOm + (if profile.soil_type = "Peaty" then 1 else 0)) 0.5 12.0
    moisture_pct :=
      clip (profile.base_moisture * moisture_seasonal + w.nMoist) 2 80
    soil_temperature_c := clip (15 + 15 * seasonal + w.nTemp) 5 45
    ec_mscm := clip w.nEc 0.1 5.0 }

/-- A soil record after the missing-value injection pass (lines 92-95):
`nitrogen_mg_kg`, `phosphorus_mg_kg` and `ec_mscm` become NaN (`none`) where
the ~3% Bernoulli mask fires. -/
structure SoilRecordOut where
  timestamp : String
  zone_id : String
  soil_type : String
  nitrogen_mg_kg : Option ℚ
  phosphorus_mg_kg : Option ℚ
  potassium_mg_kg : ℚ
  ph : ℚ
  organic_matter_pct : ℚ
  moisture_pct : ℚ
  soil_temperature_c : ℚ
  ec_mscm : Option ℚ

/-- Row-wise effect of the missing-value injection (lines 92-95). -/
def injectSoilMissing (missN missP missEc : Bool) (r : SoilRecord) :
    SoilRecordOut :=
  { timestamp := r.timestamp
    zone_id := r.zone_id
    soil_type := r.soil_type
    nitrogen_mg_kg := if missN then none else some r.nitrogen_mg_kg
    phosphorus_mg_kg := if missP then none else some r.phosphorus_mg_kg
    potassium_mg_kg := r.potassium_mg_kg
    ph := r.ph
    organic_matter_pct := r.organic_matter_pct
    moisture_pct := r.moisture_pct
    soil_temperature_c := r.soil_temperature_c
    ec_mscm := if missEc then none else some r.ec_mscm }

/-- `generate_soil_data(n_records)` (lines 39-97), as the list of generated
rows.  The random streams are inputs indexed by record position. -/
def generate_soil_data (ts : ℕ → String) (zone : ℕ → Zone)
    (seasonal moisture_seasonal : ℕ → ℚ) (noise : ℕ → SoilNoise)
    (missN missP missEc : ℕ → Bool) (n_records : ℕ) : List SoilRecordOut :=
  (List.range n_records).map fun i =>
    injectSoilMissing (missN i) (missP i) (missEc i)
      (soilRecord (ts i) (zone i) (seasonal i) (moisture_seasonal i) (noise i))

/-! ## Water simulator (`generate_water_data`, lines 102-190) -/

/-- The closed set of source types (line 119-123). -/
inductive Source
  | Borewell | River | Canal | Rainwater
deriving DecidableEq

/-- One `source_factors` row (lines 131-136). -/
structure SourceFactors where
  ph : ℚ
  tds : ℚ
  turb : ℚ
  do2 : ℚ
  hard : ℚ
  cl : ℚ
  so4 : ℚ
  no3 : ℚ

/-- `source_factors` (lines 131-136); `do2` is the dict's `"do"` key. -/
def source_factors : Source → SourceFactors
  | .Borewell => ⟨7.5, 600, 2, 5, 250, 100, 80, 15⟩
  | .River => ⟨7.0, 350, 15, 7, 150, 50, 40, 25⟩
  | .Canal => ⟨7.2, 450, 20, 6, 180, 70, 55, 30⟩
  | .Rainwater => ⟨6.5, 50, 3, 8, 30, 10, 10, 5⟩

/-- The source-type string stored in the `source_type` column. -/
def sourceName : Source → String
  | .Borewell => "Borewell"
  | .River => "River"
  | .Canal => "Canal"
  | .Rainwater => "Rainwater"

/-- The `np.random.normal` draws of one water record (lines 139-147),
one per measured quantity. -/
structure WaterNoise where
  nPh : ℚ
  nTds : ℚ
  nTurb : ℚ
  nDo : ℚ
  nHard : ℚ
  nCl : ℚ
  nSo4 : ℚ
  nNo3 : ℚ
  nTemp : ℚ

/-- One generated water record (lines 168-181). -/
structure WaterRecord where
  timestamp : String
  source_type : String
  ph : ℚ
  tds_ppm : ℚ
  turbidity_ntu : ℚ
  dissolved_oxygen_mg_l : ℚ
  hardness_mg_l : ℚ
  chloride_mg_l : ℚ
  sulfate_mg_l : ℚ
  nitrate_mg_l : ℚ
  water_temperature_c : ℚ
  quality_grade : String

/-- The record-building body of the loop of `generate_water_data`
(lines 126-181): raw values are clamped (lines 139-147), the grade is
computed from the raw values (lines 149-166), and the stored columns are
rounded (lines 168-181). -/
def waterRecord (timestamp : String) (source : Source) (seasonal : ℚ)
    (w : WaterNoise) : WaterRecord :=
  let f := source_factors source
  let ph := clip (f.ph + w.nPh) 4.5 9.5
  let tds := max 10 (f.tds + w.nTds)
  let turbidity := max 0.1 (f.turb * (1 + 0.5 * seasonal) + w.nTurb)
  let dissolved_o2 := clip (f.do2 + w.nDo) 1 14
  let hardness := max 10 (f.hard + w.nHard)
  let chloride := max 1 (f.cl + w.nCl)
  let sulfate := max 1 (f.so4 + w.nSo4)
  let nitrate := max 0.5 (f.no3 * (1 + 0.3 * seasonal) + w.nNo3)
  let temp := clip (20 + 10 * seasonal + w.nTemp) 8 38
  let grade := qualityGrade (waterQualityScore ph tds turbidity dissolved_o2 nitrate)
  { timestamp := timestamp
    source_type := sourceName source
    ph := roundTo 2 ph
    tds_ppm := roundTo 1 tds
    turbidity_ntu := roundTo 2 turbidity
    dissolved_oxygen_mg_l := roundTo 2 dissolved_o2
    hardness_mg_l := roundTo 1 hardness
    chloride_mg_l := roundTo 1 chloride
    sulfate_mg_l := roundTo 1 sulfate
    nitrate_mg_l := roundTo 2 nitrate
    water_temperature_c := roundTo 1 temp
    quality_grade := grade }

/-- A water record after the missing-value injection pass (lines 186-188):
`turbidity_ntu` and `dissolved_oxygen_mg_l` become NaN (`none`) where the
~2% Bernoulli mask fires. -/
structure WaterRecordOut where
  timestamp : String
  source_type : String
  ph : ℚ
  tds_ppm : ℚ
  turbidity_ntu : Option ℚ
  dissolved_oxygen_mg_l : Option ℚ
  hardness_mg_l : ℚ
  chloride_mg_l : ℚ
  sulfate_mg_l : ℚ
  nitrate_mg_l : ℚ
  water_temperature_c : ℚ
  quality_grade : String

/-- Row-wise effect of the missing-value injection (lines 186-188). -/
def injectWaterMissing (missTurb missDo : Bool) (r : WaterRecord) :
    WaterRecordOut :=
  { timestamp := r.timestamp
    source_type := r.source_type
    ph := r.ph
    tds_ppm := r.tds_ppm
    turbidity_ntu := if missTurb then none else some r.turbidity_ntu
    dissolved_oxygen_mg_l := if missDo then none else some r.dissolved_oxygen_mg_l
    hardness_mg_l := r.hardness_mg_l
    chloride_mg_l := r.chloride_mg_l
    sulfate_mg_l := r.sulfate_mg_l
    nitrate_mg_l := r.nitrate_mg_l
    water_temperature_c := r.water_temperature_c
    quality_grade := r.quality_grade }

/-- `generate_water_data(n_records)` (lines 102-190), as the list of
generated rows. -/
def generate_water_data (ts : ℕ → String) (source : ℕ → Source)
    (seasonal : ℕ → ℚ) (noise : ℕ → WaterNoise)
    (missTurb missDo : ℕ → Bool) (n_records : ℕ) : List WaterRecordOut :=
  (List.range n_records).map fun i =>
    injectWaterMissing (missTurb i) (missDo i)
      (waterRecord (ts i) (source i) (seasonal i) (noise i))

/-! ## Evapotranspiration estimate
(`estimate_eto`, `src/models/utils/preprocessing.py` lines 88-96),
modelled over `ℝ` because the code takes a square root. -/

/-- `estimate_eto` (lines 88-96):
`np.round(np.clip(0.0023*(T+17.8)*sqrt(abs(S+1))*(1-H/100)*(1+0.01*W), 0, 15), 2)`. -/
noncomputable def estimate_eto
    (temp_c humidity_pct solar_rad wind_speed : ℝ) : ℝ :=
  let eto := 0.0023 * (temp_c + 17.8) * Real.sqrt |solar_rad + 1|
    * (1 - humidity_pct / 100) * (1 + 0.01 * wind_speed)
  roundTo 2 (clip eto 0 15)

/-! ## Theorems -/

/-- C3: `categorize_health_score` returns "Excellent" iff score ≥ 80,
"Good" iff 60 ≤ score < 80, "Fair" iff 40 ≤ score < 60, "Poor" iff
score < 40, so the boundaries 80/60/40 are closed; in particular
100 ↦ "Excellent", 0 ↦ "Poor", 80 ↦ "Excellent", 60 ↦ "Good",
40 ↦ "Fair". -/
theorem categorize_health_score_spec :
    (∀ score : ℚ,
      ((categorize_health_score score = "Excellent") ↔ 80 ≤ score) ∧
      ((categorize_health_score score = "Good") ↔ 60 ≤ score ∧ score < 80) ∧
      ((categorize_health_score score = "Fair") ↔ 40 ≤ score ∧ score < 60) ∧
      ((categorize_health_score score = "Poor") ↔ score < 40)) ∧
    categorize_health_score 100 = "Excellent" ∧
    categorize_health_score 0 = "Poor" ∧
    categorize_health_score 80 = "Excellent" ∧
    categorize_health_score 60 = "Good" ∧
    categorize_health_score 40 = "Fair" := by
  refine ⟨fun score => ?_, by norm_num [categorize_health_score],
    by norm_num [categorize_health_score], by norm_num [categorize_health_score],
    by norm_num [categorize_health_score], by norm_num [categorize_health_score]⟩
  unfold categorize_health_score
  split_ifs with h1 h2 h3 <;>
    refine ⟨?_, ?_, ?_, ?_⟩ <;> simp <;>
      first
        | linarith
        | (constructor <;> linarith)
        | (rintro ⟨ha, hb⟩; linarith)
        | (intro h; linarith)

/-- C1: the water quality grade of a generated reading is the additive
rubric over pH, TDS, turbidity, dissolved oxygen and nitrate (each tier
contributing 0/10/20 points as claimed), the point sum maps to letter
grades at the closed thresholds 80/60/40/20, and the two concrete example
readings score 100 → "A" and 0 → "F". -/
theorem water_quality_rubric_spec :
    (∀ ph tds turbidity dissolved_o2 nitrate : ℚ,
      waterQualityScore ph tds turbidity dissolved_o2 nitrate =
        phPoints ph + tdsPoints tds + turbidityPoints turbidity
          + doPoints dissolved_o2 + nitratePoints nitrate) ∧
    (∀ score : ℕ,
      ((qualityGrade score = "A") ↔ 80 ≤ score) ∧
      ((qualityGrade score = "B") ↔ 60 ≤ score ∧ score < 80) ∧
      ((qualityGrade score = "C") ↔ 40 ≤ score ∧ score < 60) ∧
      ((qualityGrade score = "D") ↔ 20 ≤ score ∧ score < 40) ∧
      ((qualityGrade score = "F") ↔ score < 20)) ∧
    waterQualityScore 7.0 300 3 7 5 = 100 ∧
    qualityGrade (waterQualityScore 7.0 300 3 7 5) = "A" ∧
    waterQualityScore 3.0 2000 50 1 100 = 0 ∧
    qualityGrade (waterQualityScore 3.0 2000 50 1 100) = "F" := by
  refine ⟨fun ph tds turbidity dissolved_o2 nitrate => rfl, fun score => ?_,
    by norm_num [waterQualityScore], by norm_num [waterQualityScore, qualityGrade],
    by norm_num [waterQualityScore], by norm_num [waterQualityScore, qualityGrade]⟩
  unfold qualityGrade
  split_ifs with h1 h2 h3 h4 <;>
    refine ⟨?_, ?_, ?_, ?_, ?_⟩ <;> simp <;> omega

/-- C2 counterexample: at the soil row N=81, P=45, K=60, pH=7, organic
matter 4%, moisture 30%, EC 1, the component sum is 99.875, but the
function returns 99.9 (the sum rounded to one decimal before the clamp),
so the returned score does not equal the clamped raw component sum. -/
theorem soil_health_score_counterexample :
    generate_soil_health_score ⟨81, 45, 60, 7, 4, 30, 1⟩ ≠
      clip (soilScoreComponentsSum ⟨81, 45, 60, 7, 4, 30, 1⟩) 0 100 := by
  norm_num [generate_soil_health_score, soilScoreComponentsSum, npkComponent,
    phComponent, omComponent, moistureComponent, ecComponent, clip, roundTo, rnd]

/-- C2 (amended): the soil health score is the five-component rubric sum —
NPK per `max(0, 10 − |value − ideal| / sensitivity)` with N 80÷8, P 45÷5,
K 60÷6; pH 20/12/5/0 on [6.0,7.5]/[5.5,8.0]/[5.0,8.5]; organic matter up to
20 points tiered around [3,6]%; moisture up to 15 around [20,45]%; EC up to
15 around [0.5,2.5] — rounded to one decimal (ties to even) and then
clamped to [0, 100]; in particular the returned score always lies in
[0, 100]. -/
theorem generate_soil_health_score_spec :
    ∀ row : SoilRow,
      generate_soil_health_score row =
        clip (roundTo 1 (soilScoreComponentsSum row)) 0 100 ∧
      0 ≤ generate_soil_health_score row ∧
      generate_soil_health_score row ≤ 100 := by
  intro row
  have h : generate_soil_health_score row =
      clip (roundTo 1 (soilScoreComponentsSum row)) 0 100 := rfl
  refine ⟨h, ?_, ?_⟩
  · rw [h]; exact (clip_mem (by norm_num)).1
  · rw [h]; exact (clip_mem (by norm_num)).2

/-- C5: the irrigation need is
`clamp(field_capacity(soil_type)·0.5 − moisture + ETo·5 − rainfall·0.8, 0, 50)`,
always in [0, 50], with the per-soil-type field capacities Loamy 40,
Clay 50, Sandy 20, Silt 45, Clay Loam 48, Sandy Loam 28, Peaty 60 and
default 35 for any other soil type. -/
theorem irrigation_need_spec :
    (∀ (soil_type : String)
        (moisture_pct evapotranspiration_est rainfall_mm : ℚ),
      irrigation_need_mm soil_type moisture_pct evapotranspiration_est
          rainfall_mm =
        min 50 (max 0 (field_capacity soil_type * 0.5 - moisture_pct
          + evapotranspiration_est * 5 - rainfall_mm * 0.8)) ∧
      0 ≤ irrigation_need_mm soil_type moisture_pct evapotranspiration_est
          rainfall_mm ∧
      irrigation_need_mm soil_type moisture_pct evapotranspiration_est
          rainfall_mm ≤ 50) ∧
    field_capacity "Loamy" = 40 ∧
    field_capacity "Clay" = 50 ∧
    field_capacity "Sandy" = 20 ∧
    field_capacity "Silt" = 45 ∧
    field_capacity "Clay Loam" = 48 ∧
    field_capacity "Sandy Loam" = 28 ∧
    field_capacity "Peaty" = 60 ∧
    (∀ s : String, s ≠ "Loamy" → s ≠ "Clay" → s ≠ "Sandy" → s ≠ "Silt" →
      s ≠ "Clay Loam" → s ≠ "Sandy Loam" → s ≠ "Peaty" →
      field_capacity s = 35) := by
  refine ⟨fun st m e r =>
      ⟨rfl, (clip_mem (by norm_num)).1, (clip_mem (by norm_num)).2⟩,
    rfl, rfl, rfl, rfl, rfl, rfl, rfl,
    fun s h1 h2 h3 h4 h5 h6 h7 => ?_⟩
  simp [field_capacity, h1, h2, h3, h4, h5, h6, h7]

/-- Witness for C5: the hypotheses of the default-capacity clause hold at
the concrete unknown soil type "Gravel", which gets capacity 35. -/
theorem irrigation_need_spec_witness : field_capacity "Gravel" = 35 :=
  irrigation_need_spec.2.2.2.2.2.2.2.2 "Gravel" (by decide) (by decide)
    (by decide) (by decide) (by decide) (by decide) (by decide)

/-! Spec-side predicates for the irrigation-suitability claim: a checked
bound holds (vacuously for an absent value), and the number of issue
messages a bound check should contribute. -/

/-- The max bound holds for an optionally-present value. -/
def okMax (v? : Option ℚ) (limit : ℚ) : Prop :=
  match v? with
  | none => True
  | some v => v ≤ limit

/-- The min bound holds for an optionally-present value. -/
def okMin (v? : Option ℚ) (limit : ℚ) : Prop :=
  match v? with
  | none => True
  | some v => limit ≤ v

/-- Number of issues a violated max bound contributes (0 or 1). -/
def violMax (v? : Option ℚ) (limit : ℚ) : ℕ :=
  match v? with
  | none => 0
  | some v => if v > limit then 1 else 0

/-- Number of issues a violated min bound contributes (0 or 1). -/
def violMin (v? : Option ℚ) (limit : ℚ) : ℕ :=
  match v? with
  | none => 0
  | some v => if v < limit then 1 else 0

theorem checkMax_eq_nil (param : String) (v? : Option ℚ) (limit : ℚ) :
    checkMax param v? limit = [] ↔ okMax v? limit := by
  cases v? with
  | none => simp [checkMax, okMax]
  | some v =>
    by_cases h : v > limit
    · have h' : ¬v ≤ limit := not_le.mpr h
      simp [checkMax, okMax, h, h']
    · simp [checkMax, okMax, h, not_lt.mp h]

theorem checkMin_eq_nil (param : String) (v? : Option ℚ) (limit : ℚ) :
    checkMin param v? limit = [] ↔ okMin v? limit := by
  cases v? with
  | none => simp [checkMin, okMin]
  | some v =>
    by_cases h : v < limit
    · have h' : ¬limit ≤ v := not_le.mpr h
      simp [checkMin, okMin, h, h']
    · simp [checkMin, okMin, h, not_lt.mp h]

theorem checkMax_length (param : String) (v? : Option ℚ) (limit : ℚ) :
    (checkMax param v? limit).length = violMax v? limit := by
  cases v? with
  | none => rfl
  | some v => simp only [checkMax, violMax]; split_ifs <;> rfl

theorem checkMin_length (param : String) (v? : Option ℚ) (limit : ℚ) :
    (checkMin param v? limit).length = violMin v? limit := by
  cases v? with
  | none => rfl
  | some v => simp only [checkMin, violMin]; split_ifs <;> rfl

/-- C7: irrigation suitability is the strict AND of the five bound checks
(pH in [6.0, 8.5], TDS ≤ 2000, chloride ≤ 350, sulfate ≤ 400,
hardness ≤ 500, each skipped when absent): `suitable` holds exactly when
the issues list is empty, equivalently when no checked parameter is out of
bounds, and every violated bound contributes exactly one issue message. -/
theorem assess_irrigation_suitability_spec :
    ∀ reading : WaterReading,
      ((assess_irrigation_suitability reading).suitable = true ↔
        (assess_irrigation_suitability reading).issues = []) ∧
      ((assess_irrigation_suitability reading).suitable = true ↔
        (okMax reading.ph IRRIGATION_LIMITS_ph_max ∧
         okMin reading.ph IRRIGATION_LIMITS_ph_min ∧
         okMax reading.tds_ppm IRRIGATION_LIMITS_tds_max ∧
         okMax reading.chloride_mg_l IRRIGATION_LIMITS_chloride_max ∧
         okMax reading.sulfate_mg_l IRRIGATION_LIMITS_sulfate_max ∧
         okMax reading.hardness_mg_l IRRIGATION_LIMITS_hardness_max)) ∧
      (assess_irrigation_suitability reading).issues.length =
        violMax reading.ph IRRIGATION_LIMITS_ph_max
        + violMin reading.ph IRRIGATION_LIMITS_ph_min
        + violMax reading.tds_ppm IRRIGATION_LIMITS_tds_max
        + violMax reading.chloride_mg_l IRRIGATION_LIMITS_chloride_max
        + violMax reading.sulfate_mg_l IRRIGATION_LIMITS_sulfate_max
        + violMax reading.hardness_mg_l IRRIGATION_LIMITS_hardness_max := by
  intro reading
  refine ⟨?_, ?_, ?_⟩
  · simp [assess_irrigation_suitability, List.isEmpty_iff]
  · simp [assess_irrigation_suitability, List.isEmpty_iff,
      List.append_eq_nil, checkMax_eq_nil, checkMin_eq_nil]
  · simp only [assess_irrigation_suitability, List.length_append,
      checkMax_length, checkMin_length]

set_option maxHeartbeats 3200000 in
/-- C4: `diagnose` flags each of N/P/K independently below its moderate
threshold (N 60, P 25, K 35) with severity "Critical" below the low
threshold (N 40, P 15, K 25) and "Low" otherwise, and the overall severity
is "critical" iff some nutrient is Critical, else "moderate" iff any
deficiency or pH imbalance exists, else "none"; in particular N=30 gives
nitrogen "Critical" and overall "critical", and N=50 (others adequate)
gives nitrogen "Low" and overall "moderate". -/
theorem diagnose_spec :
    (∀ n p k ph : ℚ,
      severityOf "Nitrogen" (diagnose ⟨some n, some p, some k, some ph⟩) =
        (if n < 60 then some (if n < 40 then "Critical" else "Low")
         else none) ∧
      severityOf "Phosphorus" (diagnose ⟨some n, some p, some k, some ph⟩) =
        (if p < 25 then some (if p < 15 then "Critical" else "Low")
         else none) ∧
      severityOf "Potassium" (diagnose ⟨some n, some p, some k, some ph⟩) =
        (if k < 35 then some (if k < 25 then "Critical" else "Low")
         else none) ∧
      (diagnose ⟨some n, some p, some k, some ph⟩).severity =
        (if n < 40 ∨ p < 15 ∨ k < 25 then "critical"
         else if n < 60 ∨ p < 25 ∨ k < 35 ∨ ph < 5.5 ∨ ph > 8.0 then
           "moderate"
         else "none")) ∧
    severityOf "Nitrogen" (diagnose ⟨some 30, some 45, some 60, some 7⟩) =
      some "Critical" ∧
    (diagnose ⟨some 30, some 45, some 60, some 7⟩).severity = "critical" ∧
    severityOf "Nitrogen" (diagnose ⟨some 50, some 45, some 60, some 7⟩) =
      some "Low" ∧
    (diagnose ⟨some 50, some 45, some 60, some 7⟩).severity = "moderate" := by
  have main : ∀ n p k ph : ℚ,
      severityOf "Nitrogen" (diagnose ⟨some n, some p, some k, some ph⟩) =
        (if n < 60 then some (if n < 40 then "Critical" else "Low")
         else none) ∧
      severityOf "Phosphorus" (diagnose ⟨some n, some p, some k, some ph⟩) =
        (if p < 25 then some (if p < 15 then "Critical" else "Low")
         else none) ∧
      severityOf "Potassium" (diagnose ⟨some n, some p, some k, some ph⟩) =
        (if k < 35 then some (if k < 25 then "Critical" else "Low")
         else none) ∧
      (diagnose ⟨some n, some p, some k, some ph⟩).severity =
        (if n < 40 ∨ p < 15 ∨ k < 25 then "critical"
         else if n < 60 ∨ p < 25 ∨ k < 35 ∨ ph < 5.5 ∨ ph > 8.0 then
           "moderate"
         else "none") := by
    intro n p k ph
    simp only [diagnose, nitrogenThresholds, phosphorusThresholds,
      potassiumThresholds, thresholds_ph_low, thresholds_ph_high,
      Option.getD_some]
    split_ifs <;> (try simp_all [severityOf, List.find?]) <;>
      (try linarith) <;>
      (try (rcases ‹_ ∨ _› with h | h | h | h | h <;> linarith)) <;>
      (try (rcases ‹_ ∨ _› with h | h | h <;> linarith)) <;>
      (try decide)
  refine ⟨main, ?_, ?_, ?_, ?_⟩
  · rw [(main 30 45 60 7).1]; norm_num
  · rw [(main 30 45 60 7).2.2.2]; norm_num
  · rw [(main 50 45 60 7).1]; norm_num
  · rw [(main 50 45 60 7).2.2.2]; norm_num

set_option maxHeartbeats 1600000 in
/-- C10: a reading dict missing a nutrient key is diagnosed as if the value
were 0, which is below every low threshold, so the missing nutrient is
always flagged with severity "Critical" and the overall severity is
"critical", whatever the other fields hold; a missing ph key defaults to
the neutral 7.0 and raises no pH flag. -/
theorem diagnose_missing_key_spec :
    (∀ (po ko pho : Option ℚ),
      severityOf "Nitrogen" (diagnose ⟨none, po, ko, pho⟩) =
        some "Critical" ∧
      (diagnose ⟨none, po, ko, pho⟩).severity = "critical") ∧
    (∀ (vn ko pho : Option ℚ),
      severityOf "Phosphorus" (diagnose ⟨vn, none, ko, pho⟩) =
        some "Critical" ∧
      (diagnose ⟨vn, none, ko, pho⟩).severity = "critical") ∧
    (∀ (vn po pho : Option ℚ),
      severityOf "Potassium" (diagnose ⟨vn, po, none, pho⟩) =
        some "Critical" ∧
      (diagnose ⟨vn, po, none, pho⟩).severity = "critical") ∧
    (∀ (vn po ko : Option ℚ),
      severityOf "pH (Acidic)" (diagnose ⟨vn, po, ko, none⟩) = none ∧
      severityOf "pH (Alkaline)" (diagnose ⟨vn, po, ko, none⟩) = none) := by
  refine ⟨fun po ko pho => ?_, fun vn ko pho => ?_, fun vn po pho => ?_,
    fun vn po ko => ?_⟩ <;>
    · simp only [diagnose, nitrogenThresholds, phosphorusThresholds,
        potassiumThresholds, thresholds_ph_low, thresholds_ph_high,
        Option.getD_none]
      norm_num
      split_ifs <;> simp_all [severityOf, List.find?]

/-- Helper for stating interval preservation of decimal rounding with
ordinary decimal endpoints. -/
theorem roundTo_mem' {α : Type} [LinearOrderedField α] [FloorRing α]
    (d : ℕ) (z₁ z₂ : ℤ) {lo hi x : α}
    (e₁ : (z₁ : α) / (10 : α) ^ d = lo) (e₂ : (z₂ : α) / (10 : α) ^ d = hi)
    (h₁ : lo ≤ x) (h₂ : x ≤ hi) :
    lo ≤ roundTo d x ∧ roundTo d x ≤ hi := by
  constructor
  · rw [← e₁]
    exact (roundTo_mem (by rw [e₁]; exact h₁) (by rw [e₂]; exact h₂)).1
  · rw [← e₂]
    exact (roundTo_mem (by rw [e₁]; exact h₁) (by rw [e₂]; exact h₂)).2

/-- C8: whatever noise and seasonal factors are drawn, every bounded field
of a generated soil or water record lies in its documented clamp interval:
soil ph ∈ [4.0, 9.0], moisture ∈ [2, 80], soil temperature ∈ [5, 45],
EC ∈ [0.1, 5.0], organic matter ∈ [0.5, 12.0]; water ph ∈ [4.5, 9.5] and
dissolved oxygen ∈ [1, 14] (clamped at exactly those bounds, then rounded
to 2 decimals, which stays inside the interval). -/
theorem generated_bounds_spec :
    ∀ (tsS : String) (z : Zone) (seasonalS moisture_seasonal : ℚ)
      (w : SoilNoise) (tsW : String) (src : Source) (seasonalW : ℚ)
      (v : WaterNoise),
      (4.0 ≤ (soilRecord tsS z seasonalS moisture_seasonal w).ph ∧
        (soilRecord tsS z seasonalS moisture_seasonal w).ph ≤ 9.0) ∧
      (2 ≤ (soilRecord tsS z seasonalS moisture_seasonal w).moisture_pct ∧
        (soilRecord tsS z seasonalS moisture_seasonal w).moisture_pct ≤ 80) ∧
      (5 ≤ (soilRecord tsS z seasonalS moisture_seasonal w).soil_temperature_c ∧
        (soilRecord tsS z seasonalS moisture_seasonal w).soil_temperature_c
          ≤ 45) ∧
      (0.1 ≤ (soilRecord tsS z seasonalS moisture_seasonal w).ec_mscm ∧
        (soilRecord tsS z seasonalS moisture_seasonal w).ec_mscm ≤ 5.0) ∧
      (0.5 ≤ (soilRecord tsS z seasonalS moisture_seasonal w).organic_matter_pct ∧
        (soilRecord tsS z seasonalS moisture_seasonal w).organic_matter_pct
          ≤ 12.0) ∧
      (4.5 ≤ (waterRecord tsW src seasonalW v).ph ∧
        (waterRecord tsW src seasonalW v).ph ≤ 9.5) ∧
      (1 ≤ (waterRecord tsW src seasonalW v).dissolved_oxygen_mg_l ∧
        (waterRecord tsW src seasonalW v).dissolved_oxygen_mg_l ≤ 14) := by
  intro tsS z seasonalS moisture_seasonal w tsW src seasonalW v
  simp only [soilRecord, waterRecord]
  exact ⟨clip_mem (by norm_num), clip_mem (by norm_num),
    clip_mem (by norm_num), clip_mem (by norm_num), clip_mem (by norm_num),
    roundTo_mem' 2 450 950 (by norm_num) (by norm_num)
      (clip_mem (by norm_num)).1 (clip_mem (by norm_num)).2,
    roundTo_mem' 2 100 1400 (by norm_num) (by norm_num)
      (clip_mem (by norm_num)).1 (clip_mem (by norm_num)).2⟩

/-- C9: generating zero records yields an empty table for both the soil
and the water simulator, whatever the random streams are — the generation
loop simply runs zero times and the missing-value pass maps over an empty
table, with no failure path. -/
theorem generate_zero_records_spec :
    ∀ (tsS : ℕ → String) (zS : ℕ → Zone) (seasS mseasS : ℕ → ℚ)
      (noiseS : ℕ → SoilNoise) (mN mP mE : ℕ → Bool)
      (tsW : ℕ → String) (srcW : ℕ → Source) (seasW : ℕ → ℚ)
      (noiseW : ℕ → WaterNoise) (mT mD : ℕ → Bool),
      generate_soil_data tsS zS seasS mseasS noiseS mN mP mE 0 = [] ∧
      generate_water_data tsW srcW seasW noiseW mT mD 0 = [] := by
  intro tsS zS seasS mseasS noiseS mN mP mE tsW srcW seasW noiseW mT mD
  exact ⟨rfl, rfl⟩

/-- C6 counterexample: at T = 82.2, H = 0, S = −2, W = 0 the code computes
sqrt(|S+1|) = sqrt 1 and returns 0.23, while the claimed formula has
sqrt(|S|+1) = sqrt 3, giving 0.23·sqrt 3 ≈ 0.398 — so the output does not
equal the claimed clamped formula. -/
theorem estimate_eto_counterexample :
    estimate_eto 82.2 0 (-2) 0 ≠
      min 15 (max 0 (0.0023 * ((82.2 : ℝ) + 17.8)
        * Real.sqrt (|(-2 : ℝ)| + 1) * (1 - 0 / 100) * (1 + 0.01 * 0))) := by
  have hsqrt1 : Real.sqrt |(-2 : ℝ) + 1| = 1 := by
    have h : |(-2 : ℝ) + 1| = 1 := by norm_num
    rw [h, Real.sqrt_one]
  have hL : estimate_eto 82.2 0 (-2) 0 = 23 / 100 := by
    show roundTo 2 (clip (0.0023 * ((82.2 : ℝ) + 17.8)
      * Real.sqrt |(-2 : ℝ) + 1| * (1 - 0 / 100) * (1 + 0.01 * 0)) 0 15)
      = 23 / 100
    rw [hsqrt1]
    have hx : (0.0023 : ℝ) * (82.2 + 17.8) * 1 * (1 - 0 / 100)
        * (1 + 0.01 * 0) = 23 / 100 := by norm_num
    rw [hx]
    have hc : clip (23 / 100 : ℝ) 0 15 = 23 / 100 := by
      unfold clip
      rw [max_eq_right (by norm_num), min_eq_right (by norm_num)]
    rw [hc]
    unfold roundTo rnd
    norm_num
  have h3 : |(-2 : ℝ)| + 1 = 3 := by norm_num
  have hs3 : (0 : ℝ) ≤ Real.sqrt 3 := Real.sqrt_nonneg 3
  have hlt2 : Real.sqrt 3 < 2 := by
    have h4 : (2 : ℝ) = Real.sqrt 4 := by
      rw [show (4 : ℝ) = 2 ^ 2 by norm_num, Real.sqrt_sq (by norm_num)]
    rw [h4]
    exact Real.sqrt_lt_sqrt (by norm_num) (by norm_num)
  have hgt1 : (1 : ℝ) < Real.sqrt 3 := by
    have h1 : (1 : ℝ) = Real.sqrt 1 := Real.sqrt_one.symm
    rw [h1]
    exact Real.sqrt_lt_sqrt (by norm_num) (by norm_num)
  have hR : min (15 : ℝ) (max 0 (0.0023 * ((82.2 : ℝ) + 17.8)
      * Real.sqrt (|(-2 : ℝ)| + 1) * (1 - 0 / 100) * (1 + 0.01 * 0)))
      = 23 / 100 * Real.sqrt 3 := by
    rw [h3]
    have hval : (0.0023 : ℝ) * (82.2 + 17.8) * Real.sqrt 3 * (1 - 0 / 100)
        * (1 + 0.01 * 0) = 23 / 100 * Real.sqrt 3 := by ring_nf
    rw [hval]
    rw [max_eq_right (by positivity), min_eq_right (by nlinarith)]
  intro heq
  rw [hL, hR] at heq
  nlinarith [heq, hgt1]

/-- C6 (amended): `estimate_eto` equals the formula
`0.0023·(T+17.8)·sqrt(|S+1|)·(1−H/100)·(1+0.01·W)` — with the absolute
value applied to S+1, not to S alone — clamped to [0, 15] and rounded to
2 decimals, and the result always lies in [0, 15]. -/
theorem estimate_eto_spec :
    ∀ temp_c humidity_pct solar_rad wind_speed : ℝ,
      estimate_eto temp_c humidity_pct solar_rad wind_speed =
        roundTo 2 (min 15 (max 0 (0.0023 * (temp_c + 17.8)
          * Real.sqrt |solar_rad + 1| * (1 - humidity_pct / 100)
          * (1 + 0.01 * wind_speed)))) ∧
      0 ≤ estimate_eto temp_c humidity_pct solar_rad wind_speed ∧
      estimate_eto temp_c humidity_pct solar_rad wind_speed ≤ 15 := by
  intro temp_c humidity_pct solar_rad wind_speed
  refine ⟨rfl, ?_, ?_⟩
  · exact (roundTo_mem' 2 0 1500 (by norm_num) (by norm_num)
      (clip_mem (by norm_num)).1 (clip_mem (by norm_num)).2).1
  · exact (roundTo_mem' 2 0 1500 (by norm_num) (by norm_num)
      (clip_mem (by norm_num)).1 (clip_mem (by norm_num)).2).2

end AgriSense
